import Mathlib

/-!
Verification development for the exam-artifact extraction and aggregation
engine (answer-sheet segmentation, oracle call protocol, mastery
aggregation, verify-fix loop, report assembly).

The definitions below are a shallow embedding of the Python source:
`src/user_analysis/student_analyzer.py` and
`src/ExamQuestionVerification/exam_question_verification.py`.
Documents are embedded as `List Char`; the specific regular expressions of
the source are embedded by direct executable matchers that implement the
leftmost-match / lazy-quantifier semantics of Python `re.search` for the
exact patterns used (all lazy gaps in those patterns are `.*?` wildcards,
so the continuation of a pattern succeeds from an earlier position
whenever it succeeds from a later one; hence taking the first viable
choice at every lazy step and the first viable start position computes the
same match that the backtracking engine finds).
-/

/-- Whitespace as Python's `str.isspace`/regex `\s` sees it (ASCII range;
the documents handled here contain no exotic Unicode spaces). -/
def pyIsSpace (c : Char) : Bool :=
  c = ' ' || c = '\t' || c = '\n' || c = '\r' || c = '\x0b' || c = '\x0c'

/-- Strip leading and trailing whitespace, as Python `str.strip()`. -/
def pyStrip (l : List Char) : List Char :=
  ((l.dropWhile pyIsSpace).reverse.dropWhile pyIsSpace).reverse

/-- Split on newline characters, as Python `str.split('\n')`:
always returns at least one (possibly empty) part. -/
def splitLinesL : List Char → List (List Char)
  | [] => [[]]
  | c :: r =>
    if c = '\n' then [] :: splitLinesL r
    else
      match splitLinesL r with
      | [] => [[c]]
      | l :: ls => (c :: l) :: ls

/-- If `lit` is a leading literal of `s`, return the remainder. -/
def dropLit : List Char → List Char → Option (List Char)
  | [], s => some s
  | _ :: _, [] => none
  | p :: ps, c :: cs => if p = c then dropLit ps cs else none

/-- Scan string positions left to right, returning the first position's
result where `tryAt` succeeds (the leftmost-match rule of `re.search`). -/
def scanFirst {α : Type} (tryAt : List Char → Option α) : List Char → Option α
  | [] => tryAt []
  | c :: r =>
    match tryAt (c :: r) with
    | some a => some a
    | none => scanFirst tryAt r

/-- Leftmost scan that also returns the text skipped before the match and
the remainder after it; `tryAt` returns (matched, rest). -/
def scanFirstSplit (tryAt : List Char → Option (List Char × List Char)) :
    List Char → Option (List Char × List Char × List Char)
  | [] => (tryAt []).map (fun pr => ([], pr.1, pr.2))
  | c :: r =>
    match tryAt (c :: r) with
    | some (m, rest) => some ([], m, rest)
    | none => (scanFirstSplit tryAt r).map (fun t => (c :: t.1, t.2.1, t.2.2))

/-- Matcher for a literal at the current position. -/
def litAt (lit : List Char) (s : List Char) : Option (List Char × List Char) :=
  (dropLit lit s).map (fun r => (lit, r))

/-- `True` iff the literal `pat` occurs somewhere in `s`
(Python's `pat in s` for nonempty `pat`). -/
def containsLit (pat : List Char) (s : List Char) : Bool :=
  (scanFirst (fun t => (dropLit pat t).map (fun _ => ())) s).isSome

/-- Maximal leading run of ASCII digits (regex `\d+`, greedy) and the rest. -/
def takeDigits (s : List Char) : List Char × List Char :=
  (s.takeWhile (fun c => c.isDigit), s.dropWhile (fun c => c.isDigit))

/-- Decimal value of a digit run, as Python `int`. -/
def digitsToNat (ds : List Char) : Nat :=
  ds.foldl (fun n c => n * 10 + (c.toNat - '0'.toNat)) 0

/-- Body of `\S+?、` after `## ` (lazy): consume non-whitespace characters
until the first `、`; any whitespace before it kills the match. -/
def scanMarkEnd : List Char → Option (List Char × List Char)
  | [] => none
  | c :: r =>
    if c = '、' then some ([c], r)
    else if pyIsSpace c then none
    else (scanMarkEnd r).map (fun pr => (c :: pr.1, pr.2))

/-- Matcher for the heading marker `## \S+?、` at the current position
(used both as the start of every section pattern of `_parse_sections` and
as the `## \S+?、` terminator of the non-programming patterns). -/
def matchHeadingMark (s : List Char) : Option (List Char × List Char) :=
  match dropLit ('#' :: '#' :: ' ' :: []) s with
  | none => none
  | some r =>
    match r with
    | [] => none
    | c :: r2 =>
      if pyIsSpace c then none
      else (scanMarkEnd r2).map (fun pr => ('#' :: '#' :: ' ' :: c :: pr.1, pr.2))

/-- One section pattern of `_parse_sections`:
`## \S+?、 .*? <keyword> .*? <terminator>` under `re.DOTALL`, matched at the
current position; returns (matched span, rest). -/
def matchSectionAt (kw : List Char) (term : List Char → Option (List Char × List Char))
    (s : List Char) : Option (List Char × List Char) :=
  match matchHeadingMark s with
  | none => none
  | some (h, r1) =>
    match scanFirstSplit (litAt kw) r1 with
    | none => none
    | some (pre1, m1, r2) =>
      match scanFirstSplit term r2 with
      | none => none
      | some (pre2, m2, r3) => some (h ++ pre1 ++ m1 ++ pre2 ++ m2, r3)

/-- `re.search` of one section pattern over the whole document. -/
def sectionSpan (kw : List Char) (term : List Char → Option (List Char × List Char))
    (content : List Char) : Option (List Char) :=
  (scanFirstSplit (matchSectionAt kw term) content).map (fun t => t.2.1)

/-- The six question types of `QuestionType` in `user_analysis/schemas.py`. -/
inductive QuestionType where
  | singleChoice
  | multipleChoice
  | trueFalse
  | fillInBlank
  | shortAnswer
  | programming
deriving DecidableEq, Repr

/-- `QuestionType.value`: the canonical Chinese display name. -/
def questionTypeValue : QuestionType → String
  | .singleChoice => "单选题"
  | .multipleChoice => "多选题"
  | .trueFalse => "判断题"
  | .fillInBlank => "填空题"
  | .shortAnswer => "简答题"
  | .programming => "编程题"

/-- One parsed question (`QuestionAnalysis` of `user_analysis/schemas.py`;
`question_number` is `str(index)` in the source, kept as the index here). -/
structure QuestionAnalysis where
  questionNumber : Nat
  questionType : QuestionType
  knowledgePoint : List Char
  score : Nat
  studentScore : Nat
  correctAnswer : List Char
  studentAnswer : List Char
deriving DecidableEq, Repr

/-- One parsed section (`SectionAnalysis` of `user_analysis/schemas.py`). -/
structure SectionAnalysis where
  sectionName : List Char
  questionType : QuestionType
  totalScore : Nat
  studentScore : Nat
  questions : List QuestionAnalysis
deriving DecidableEq, Repr

/-- Capture of `(.+?)（` (no DOTALL): everything before the first fullwidth
`（`, all of it on one line; the first character is consumed unconditionally
by the mandatory `.`. -/
def scanCapToParen : List Char → Option (List Char)
  | [] => none
  | c :: r =>
    if c = '（' then some []
    else if c = '\n' then none
    else (scanCapToParen r).map (fun l => c :: l)

/-- Matcher for `## \S+?、(.+?)（` at the current position; returns group 1
(the section display name). -/
def matchNameAt (s : List Char) : Option (List Char) :=
  match matchHeadingMark s with
  | none => none
  | some (_, r1) =>
    match r1 with
    | [] => none
    | c :: r2 =>
      if c = '\n' then none
      else (scanCapToParen r2).map (fun l => c :: l)

/-- Matcher for `得分：(\d+)` at the current position. -/
def matchScoreColonAt (s : List Char) : Option Nat :=
  match dropLit "得分：".data s with
  | none => none
  | some r =>
    match takeDigits r with
    | ([], _) => none
    | (ds, _) => some (digitsToNat ds)

/-- Matcher for `共(\d+)分` at the current position (greedy `\d+`
immediately followed by `分`). -/
def matchTotalAt (s : List Char) : Option Nat :=
  match dropLit "共".data s with
  | none => none
  | some r =>
    match takeDigits r with
    | ([], _) => none
    | (ds, r2) =>
      match r2 with
      | c :: _ => if c = '分' then some (digitsToNat ds) else none
      | [] => none

/-- Matcher for `（(\d+)分）` at the current position (item score pattern of
`_extract_scores`). -/
def matchParenScoreAt (s : List Char) : Option Nat :=
  match dropLit "（".data s with
  | none => none
  | some r =>
    match takeDigits r with
    | ([], _) => none
    | (ds, r2) =>
      match dropLit "分）".data r2 with
      | some _ => some (digitsToNat ds)
      | none => none

/-- Matcher for the item separator `### 第\d+题` at the current position. -/
def matchItemMarkAt (s : List Char) : Option (List Char × List Char) :=
  match dropLit "### 第".data s with
  | none => none
  | some r =>
    match takeDigits r with
    | ([], _) => none
    | (ds, r2) =>
      match dropLit "题".data r2 with
      | none => none
      | some rest => some ("### 第".data ++ ds ++ "题".data, rest)

/-- `re.split(r"### 第\d+题", content)` (fuelled; each split consumes at
least the separator, so `content.length` fuel always suffices). -/
def splitItemBlocksAux : Nat → List Char → List (List Char)
  | 0, s => [s]
  | fuel + 1, s =>
    match scanFirstSplit matchItemMarkAt s with
    | none => [s]
    | some (pre, _, rest) => pre :: splitItemBlocksAux fuel rest

def splitItemBlocks (s : List Char) : List (List Char) :=
  splitItemBlocksAux s.length s

/-- `_extract_question_content`: first (or second, if the first is blank)
stripped line of the stripped block; the source's fallback name for an
empty line list is kept for totality although `str.split` never returns an
empty list. -/
def extractQuestionContent (block : List Char) (t : QuestionType) (index : Nat) :
    List Char :=
  match splitLinesL (pyStrip block) with
  | [] => (questionTypeValue t).data ++ Nat.toDigits 10 index
  | l0 :: rest =>
    let qc := pyStrip l0
    if qc = [] then
      match rest with
      | l1 :: _ => pyStrip l1
      | [] => qc
    else qc

/-- Single-line answer capture of `_extract_answers` (objective types):
`<marker>(.+?)(?=\n|$)` — the nonempty remainder of the marker's line. -/
def matchObjAnswerAt (marker : List Char) (s : List Char) : Option (List Char) :=
  match dropLit marker s with
  | none => none
  | some r =>
    match r.takeWhile (fun c => c ≠ '\n') with
    | [] => none
    | cap => some cap

/-- Lazy multi-line capture body: all characters before the first
occurrence of the stop literal. -/
def lazyUpTo (stop : List Char) : List Char → List Char
  | [] => []
  | c :: r =>
    match dropLit stop (c :: r) with
    | some _ => []
    | none => c :: lazyUpTo stop r

/-- Multi-line answer capture of `_extract_answers` (subjective types):
`<marker>\s*(.+?)(?=<stop>|$)` with `re.DOTALL`.  When only whitespace
follows the marker the engine backtracks `\s*` and captures a whitespace
character, which the caller's `strip()` erases; we return the stripped
value directly in that corner. -/
def matchSubjAnswerAt (marker stop : List Char) (s : List Char) : Option (List Char) :=
  match dropLit marker s with
  | none => none
  | some r =>
    match r.dropWhile pyIsSpace with
    | [] => if r = [] then none else some []
    | c :: rest => some (c :: lazyUpTo stop rest)

/-- `_extract_answers`: (student answer, correct answer), stripped;
a failed search degrades to the empty string. -/
def extractAnswers (block : List Char) (isSubjective : Bool) : List Char × List Char :=
  if isSubjective then
    (pyStrip ((scanFirst (matchSubjAnswerAt "**学生答案**：".data "**正确答案**".data) block).getD []),
     pyStrip ((scanFirst (matchSubjAnswerAt "**正确答案**：".data "**答案解析**".data) block).getD []))
  else
    (pyStrip ((scanFirst (matchObjAnswerAt "**学生答案**：".data) block).getD []),
     pyStrip ((scanFirst (matchObjAnswerAt "**正确答案**：".data) block).getD []))

/-- `_parse_question`. -/
def parseQuestion (block : List Char) (t : QuestionType) (index : Nat) : QuestionAnalysis :=
  let questionContent := extractQuestionContent block t index
  let score := (scanFirst matchParenScoreAt block).getD 0
  let studentScore := (scanFirst matchScoreColonAt block).getD 0
  let isSubjective := t = QuestionType.shortAnswer ∨ t = QuestionType.programming
  let answers := extractAnswers block (decide isSubjective)
  let knowledgePoint :=
    if questionContent ≠ [] then questionContent
    else (questionTypeValue t).data ++ Nat.toDigits 10 index
  { questionNumber := index
    questionType := t
    knowledgePoint := knowledgePoint
    score := score
    studentScore := studentScore
    correctAnswer := answers.2
    studentAnswer := answers.1 }

/-- `_parse_questions`: split on the item marker, discard the text before
the first marker, number the blocks from 1 (the source's type membership
test covers all six types, so the split always runs). -/
def parseQuestions (sectionContent : List Char) (t : QuestionType) :
    List QuestionAnalysis :=
  ((splitItemBlocks sectionContent).drop 1).enum.map
    (fun p => parseQuestion p.2 t (p.1 + 1))

/-- `_parse_section`. -/
def parseSection (sectionContent : List Char) (t : QuestionType) : SectionAnalysis :=
  let name :=
    match scanFirst matchNameAt sectionContent with
    | some nm => nm
    | none => (questionTypeValue t).data
  { sectionName := name
    questionType := t
    totalScore := (scanFirst matchTotalAt sectionContent).getD 0
    studentScore := (scanFirst matchScoreColonAt sectionContent).getD 0
    questions := parseQuestions sectionContent t }

/-- Keyword literal of each section pattern. -/
def sectionKeyword (t : QuestionType) : List Char := (questionTypeValue t).data

/-- The matched span feeding `_parse_section` for one question type, if
any.  The patterns for the first five types terminate with another heading
`## \S+?、`; the programming pattern is
`## \S+?、.*?编程题.*?## 考试总结|$`, in which the low-precedence `|` makes
the whole second alternative the empty match at end of input, so a
programming span is found in every document (empty when the first
alternative has no match). -/
def sectionSource (content : List Char) (t : QuestionType) : Option (List Char) :=
  match t with
  | .programming =>
    some ((sectionSpan (sectionKeyword .programming) (litAt "## 考试总结".data) content).getD [])
  | _ => sectionSpan (sectionKeyword t) matchHeadingMark content

/-- `_parse_sections`, iterating the six patterns in the source's
dictionary order (a constructed `SectionAnalysis` object is always truthy,
so the source's `if section_analysis:` guard never filters). -/
def parseSections (content : List Char) : List SectionAnalysis :=
  [QuestionType.singleChoice, QuestionType.multipleChoice, QuestionType.trueFalse,
   QuestionType.fillInBlank, QuestionType.shortAnswer, QuestionType.programming].filterMap
    (fun t => (sectionSource content t).map (fun sc => parseSection sc t))

/-! ## Mastery aggregation (`_analyze_knowledge_mastery_with_llm`, preliminary pass) -/

/-- Objective items of one topic: the source filters on
`q['题型'] in ['单选题', '多选题', '判断题', '填空题']`. -/
def objectiveQuestionsOf (qs : List QuestionAnalysis) : List QuestionAnalysis :=
  qs.filter (fun q =>
    (["单选题", "多选题", "判断题", "填空题"] : List String).contains (questionTypeValue q.questionType))

/-- Subjective items of one topic: `q['题型'] in ['简答题', '编程题']`. -/
def subjectiveQuestionsOf (qs : List QuestionAnalysis) : List QuestionAnalysis :=
  qs.filter (fun q =>
    (["简答题", "编程题"] : List String).contains (questionTypeValue q.questionType))

/-- `correct_count`: objective items with full marks
(`q['题目得分'] == q['题目总分']`). -/
def correctCountOf (qs : List QuestionAnalysis) : Nat :=
  ((objectiveQuestionsOf qs).filter (fun q => q.studentScore = q.score)).length

/-- `objective_mastery = (correct_count / len(objective_questions)) * 100`. -/
def objectiveMasteryOf (qs : List QuestionAnalysis) : ℚ :=
  ((correctCountOf qs : ℚ) / ((objectiveQuestionsOf qs).length : ℚ)) * 100

/-- `subjective_score`: sum of student scores over subjective items. -/
def subjectiveScoreOf (qs : List QuestionAnalysis) : Nat :=
  ((subjectiveQuestionsOf qs).map (fun q => q.studentScore)).sum

/-- `subjective_total`: sum of item scores over subjective items. -/
def subjectiveTotalOf (qs : List QuestionAnalysis) : Nat :=
  ((subjectiveQuestionsOf qs).map (fun q => q.score)).sum

/-- `subjective_mastery`, with the source's divide-by-zero guard
(`if subjective_total > 0`). -/
def subjectiveMasteryOf (qs : List QuestionAnalysis) : ℚ :=
  if 0 < subjectiveTotalOf qs then
    ((subjectiveScoreOf qs : ℚ) / (subjectiveTotalOf qs : ℚ)) * 100
  else 0

/-- The preliminary mastery of one topic, mirroring the accumulation of
`total_mastery_score` / `total_questions` over the two
`if objective_questions:` / `if subjective_questions:` blocks and the
final `if total_questions > 0` guard. -/
def preliminaryMastery (qs : List QuestionAnalysis) : ℚ :=
  let oc := (objectiveQuestionsOf qs).length
  let sc := (subjectiveQuestionsOf qs).length
  let totalMasteryScore : ℚ :=
    (if oc ≠ 0 then objectiveMasteryOf qs * (oc : ℚ) else 0) +
    (if sc ≠ 0 then subjectiveMasteryOf qs * (sc : ℚ) else 0)
  let totalQuestions : Nat := (if oc ≠ 0 then oc else 0) + (if sc ≠ 0 then sc else 0)
  if 0 < totalQuestions then totalMasteryScore / (totalQuestions : ℚ) else 0

/-- The claim's formula for the objective sub-mastery, stated in the
claim's own terms (refinement target, compared against the source-derived
`preliminaryMastery`). -/
def claimObjectiveMastery (qs : List QuestionAnalysis) : ℚ :=
  100 * (correctCountOf qs : ℚ) / ((objectiveQuestionsOf qs).length : ℚ)

/-- The claim's formula for the subjective sub-mastery (0 when the item
score sum is 0). -/
def claimSubjectiveMastery (qs : List QuestionAnalysis) : ℚ :=
  if subjectiveTotalOf qs = 0 then 0
  else 100 * (subjectiveScoreOf qs : ℚ) / (subjectiveTotalOf qs : ℚ)

/-- The mixed-mastery scenario: 2 objective items (1 correct, 1 wrong) and
2 subjective items scored 3/5 and 4/5. -/
def c5ScenarioItems : List QuestionAnalysis :=
  [⟨1, .singleChoice, "集合".data, 2, 2, "A".data, "A".data⟩,
   ⟨2, .singleChoice, "函数".data, 2, 0, "B".data, "C".data⟩,
   ⟨3, .shortAnswer, "数列".data, 5, 3, "略".data, "略".data⟩,
   ⟨4, .programming, "排序".data, 5, 4, "略".data, "略".data⟩]

/-! ## Oracle-assisted refinement (`_analyze_knowledge_mastery_with_llm`, tail) -/

/-- Association lookup standing for Python `dict` access / membership. -/
def getVal {κ α : Type} [DecidableEq κ] : List (κ × α) → κ → Option α
  | [], _ => none
  | (k, v) :: r, key => if k = key then some v else getVal r key

/-- Python `dict` assignment `m[k] = v`: replace in place when the key
exists, else append. -/
def dictInsert {κ α : Type} [DecidableEq κ] (m : List (κ × α)) (k : κ) (v : α) :
    List (κ × α) :=
  if (getVal m k).isSome then m.map (fun p => if p.1 = k then (k, v) else p)
  else m ++ [(k, v)]

/-- Split a line at its first ASCII `:` (Python
`line.split(':', 1)` guarded by `':' in line`). -/
def splitFirstColon (l : List Char) : Option (List Char × List Char) :=
  (scanFirstSplit (fun s => (dropLit [':'] s).map (fun r => ([':'], r))) l).map
    (fun t => (t.1, t.2.2))

/-- `mastery_str.replace('%', '')`. -/
def stripPercent (l : List Char) : List Char :=
  l.filter (fun c => c ≠ '%')

/-- Parsing of the oracle's refinement response
(`result.strip().split('\n')`, keep lines containing `:`, split once,
parse the right-hand side as a number after removing `%` and stripping;
unparsable lines are skipped).  The numeric parse `float(...)` is the
parameter `pf`. -/
def parseMasteryResponse (pf : List Char → Option ℚ) (result : List Char) :
    List (List Char × ℚ) :=
  (splitLinesL (pyStrip result)).foldl
    (fun acc line =>
      match splitFirstColon line with
      | none => acc
      | some (k, rest) =>
        match pf (pyStrip (stripPercent rest)) with
        | none => acc
        | some m => dictInsert acc (pyStrip k) m)
    []

/-- The fallback pass: every topic not present in the parsed response map
receives its preliminary estimate
(`for knowledge in knowledge_questions: if knowledge not in knowledge_mastery: ...`). -/
def refineMastery (parsed : List (List Char × ℚ)) (topics : List (List Char))
    (prelim : List Char → ℚ) : List (List Char × ℚ) :=
  topics.foldl
    (fun acc t => if (getVal acc t).isSome then acc else dictInsert acc t (prelim t))
    parsed

/-! ## Learning suggestions (`_generate_learning_suggestions_with_llm`, response handling) -/

/-- The `ValueError` message raised by the source. -/
def suggestionErrorMsg : String := "大模型未能成功生成学习建议，请检查模型配置或提示词"

/-- Handling of the oracle's suggestions response: the source *raises*
`ValueError` when the stripped result is empty or the result contains
`无法` or `不能`; otherwise it returns the nonempty stripped lines, capped
at 5. -/
def learningSuggestionsFromResult (result : List Char) : Except String (List String) :=
  if (pyStrip result).isEmpty || containsLit "无法".data result || containsLit "不能".data result then
    Except.error suggestionErrorMsg
  else
    Except.ok (((((splitLinesL result).map pyStrip).filter (fun l => l ≠ [])).take 5).map
      (fun l => String.mk l))

/-! ## Report assembly (`generate_report_markdown`, overall percentage) -/

/-- `round(x, 2)` on the exact rational value. -/
def round2 (q : ℚ) : ℚ := ((round (q * 100) : ℤ) : ℚ) / 100

/-- The overall-percentage computation of `generate_report_markdown`:
`round((student_score / total_score) * 100, 2) if total_score > 0 else 0`. -/
def overallPercentage (sections : List SectionAnalysis) : ℚ :=
  let totalScore : Nat := (sections.map (fun s => s.totalScore)).sum
  let studentScore : Nat := (sections.map (fun s => s.studentScore)).sum
  if 0 < totalScore then round2 (((studentScore : ℚ) / (totalScore : ℚ)) * 100) else 0

/-! ## Verify-fix loop (`exam_question_verification.py`) -/

/-- `ExamQuestion` of `ExamQuestionVerification/schemas.py`. -/
structure ExamQuestion where
  question : String
  answer : String
  answerAnalysis : String
  questionType : String
  knowledgePoint : String
  knowledgePointDescription : String
  extraRequirement : String
deriving DecidableEq, Repr

/-- `VerificationResult` of `ExamQuestionVerification/schemas.py`. -/
structure VerificationResult where
  isCompliant : Bool
  suggestion : Option String
deriving DecidableEq, Repr

/-- `fix_exam_question` in the regime where the oracle produces a
parseable artifact within the retry budget: a no-op on a compliant
verdict, otherwise the oracle-produced remediation (the parameter
`oracleFix` stands for that successful oracle interaction).  The
exhaustion path of the source — `ExamQuestion(**json_res)` applied to the
`ExamQuestion` object returned by `default_factory`, which raises
`TypeError` — is modelled separately by `fixExamQuestionChecked`. -/
def fixExamQuestion (oracleFix : ExamQuestion → VerificationResult → ExamQuestion)
    (q : ExamQuestion) (v : VerificationResult) : ExamQuestion :=
  if v.isCompliant then q else oracleFix q v

/-- The loop body of `verify_and_fix_exam_question`: at each remaining
iteration verify the latest artifact; break on a compliant verdict;
otherwise fix and continue.  Returns (latest artifact, number of
verification steps, number of fix steps). -/
def verifyAndFixAux (verify : ExamQuestion → VerificationResult)
    (oracleFix : ExamQuestion → VerificationResult → ExamQuestion) :
    Nat → ExamQuestion → Nat → Nat → ExamQuestion × Nat × Nat
  | 0, q, vc, fc => (q, vc, fc)
  | n + 1, q, vc, fc =>
    let v := verify q
    if v.isCompliant then (q, vc + 1, fc)
    else verifyAndFixAux verify oracleFix n (fixExamQuestion oracleFix q v) (vc + 1) (fc + 1)

/-- `verify_and_fix_exam_question(exam_question, max_fix_attempts)`. -/
def verifyAndFixExamQuestion (verify : ExamQuestion → VerificationResult)
    (oracleFix : ExamQuestion → VerificationResult → ExamQuestion)
    (q : ExamQuestion) (maxFixAttempts : Nat) : ExamQuestion × Nat × Nat :=
  verifyAndFixAux verify oracleFix maxFixAttempts q 0 0

/-- One verify-then-fix step (`fix_exam_question` applied to the latest
verdict), used to express the loop's result as an iterate. -/
def verifyFixStep (verify : ExamQuestion → VerificationResult)
    (oracleFix : ExamQuestion → VerificationResult → ExamQuestion)
    (q : ExamQuestion) : ExamQuestion :=
  fixExamQuestion oracleFix q (verify q)

/-! ## Oracle call protocol (`_call_agent_with_json_retry`) -/

/-- The escalation prompt sent on attempts 2..max
(`retry_prompt = f"上一次的响应格式不正确，无法解析为JSON。{json_format_prompt}\n\n请重新回答之前的问题。"`). -/
def mkRetryPrompt (jsonFormatPrompt : String) : String :=
  "上一次的响应格式不正确，无法解析为JSON。" ++ jsonFormatPrompt ++ "\n\n请重新回答之前的问题。"

/-- Required-field validation: every required name must be a key of the
parsed record (`for field in required_fields: if field not in json_res`). -/
def hasRequiredFields {α : Type} (required : List String) (m : List (String × α)) : Bool :=
  required.all (fun f => (getVal m f).isSome)

/-- The retry loop of `_call_agent_with_json_retry`.  `agentF i p` is the
oracle's raw response to the `i`-th call (0-based) with prompt `p`;
`parse` is JSON decoding of that returned response to a field map
(`none` = undecodable or record missing a required field).  The source's
`except` clause catches only `json.JSONDecodeError`, `ValueError` and
`KeyError`, so this models format failures of *returned* responses; an
exception raised by the oracle transport itself is not caught there and
would propagate — transport failures are outside this embedding.
Attempt `i` sends the original prompt when `i = 0` and the escalation
prompt otherwise; a response parsing to a record with all required fields
is returned at once; after the attempts are exhausted the
`default_factory` value is returned (never an error).  The second
component is the transcript of prompts sent. -/
def callAgentAux {ρ α : Type} (agentF : Nat → String → ρ)
    (parse : ρ → Option (List (String × α)))
    (required : List String) (defaultF : Unit → List (String × α))
    (prompt retryPrompt : String) :
    Nat → Nat → List String → List (String × α) × List String
  | 0, _, sent => (defaultF (), sent)
  | fuel + 1, attempt, sent =>
    let p := if attempt = 0 then prompt else retryPrompt
    let res := agentF attempt p
    match parse res with
    | some m =>
      if hasRequiredFields required m then (m, sent ++ [p])
      else callAgentAux agentF parse required defaultF prompt retryPrompt fuel (attempt + 1) (sent ++ [p])
    | none => callAgentAux agentF parse required defaultF prompt retryPrompt fuel (attempt + 1) (sent ++ [p])

/-- `_call_agent_with_json_retry(agent, prompt, required_fields,
default_factory, max_retry_attempts, json_format_prompt)`. -/
def callAgentWithJsonRetry {ρ α : Type} (agentF : Nat → String → ρ)
    (parse : ρ → Option (List (String × α)))
    (required : List String) (defaultF : Unit → List (String × α))
    (prompt jsonFormatPrompt : String) (maxRetryAttempts : Nat) :
    List (String × α) × List String :=
  callAgentAux agentF parse required defaultF prompt (mkRetryPrompt jsonFormatPrompt)
    maxRetryAttempts 0 []

/-- The `json_format_prompt` literal of `verify_exam_question`. -/
def verificationJsonFormatPrompt : String :=
  "\n            请严格按照以下JSON格式返回结果，不要包含任何其他文字说明：\n            \x7b\n                \"is_compliant\": true/false,\n                \"suggestion\": \"修正建议内容\"\n            \x7d\n        "

/-- The prompt position expected by the escalation rule: the caller's
prompt first, the fixed escalation prompt afterwards. -/
def promptAt (prompt retryPrompt : String) (i : Nat) : String :=
  if i = 0 then prompt else retryPrompt

/-! ## The fix step's exhaustion path (`fix_exam_question`, tail) -/

/-- What `_call_agent_with_json_retry` hands back at the
`fix_exam_question` call site: either the parsed JSON record, or whatever
`default_factory` returned — here `default_factory = lambda: exam_question`,
so the pydantic `ExamQuestion` object itself, not a mapping. -/
inductive FixCallResult where
  | parsed (fields : List (String × String))
  | defaulted (q : ExamQuestion)
deriving DecidableEq, Repr

/-- The seven `required_fields` of the fix call. -/
def fixRequiredFields : List String :=
  ["question", "answer", "answer_analysis", "question_type",
   "knowledge_point", "knowledge_point_description", "extra_requirement"]

/-- The retry loop as instantiated by `fix_exam_question`, keeping that
call site's result type: a response parsing to a record with all seven
required fields is returned as `parsed`; exhaustion yields the caller's
default — the input artifact itself — as `defaulted`.  As everywhere in
this embedding, only format failures of returned responses are modelled;
a transport exception would propagate uncaught. -/
def callAgentFixRetry {ρ : Type} (agentF : Nat → String → ρ)
    (parse : ρ → Option (List (String × String))) (defaultQ : ExamQuestion)
    (prompt retryPrompt : String) : Nat → Nat → FixCallResult
  | 0, _ => .defaulted defaultQ
  | fuel + 1, attempt =>
    let p := if attempt = 0 then prompt else retryPrompt
    match parse (agentF attempt p) with
    | some m =>
      if hasRequiredFields fixRequiredFields m then .parsed m
      else callAgentFixRetry agentF parse defaultQ prompt retryPrompt fuel (attempt + 1)
    | none => callAgentFixRetry agentF parse defaultQ prompt retryPrompt fuel (attempt + 1)

/-- Python's error for `ExamQuestion(**obj)` when `obj` is the pydantic
`ExamQuestion` object rather than a mapping. -/
def examQuestionUnpackTypeError : String :=
  "TypeError: argument after ** must be a mapping, not ExamQuestion"

/-- The final `return ExamQuestion(**json_res)` of `fix_exam_question`:
a parsed record (its seven required fields already validated present)
constructs the new artifact, while the defaulted branch `**`-unpacks the
pydantic `ExamQuestion`, which is not a mapping — a `TypeError` that
nothing in `verify_and_fix_exam_question` catches.  (Pydantic's own
per-field value validation of the parsed record is outside this
embedding.) -/
def buildFixedExamQuestion : FixCallResult → Except String ExamQuestion
  | .parsed m =>
    Except.ok
      { question := (getVal m "question").getD ""
        answer := (getVal m "answer").getD ""
        answerAnalysis := (getVal m "answer_analysis").getD ""
        questionType := (getVal m "question_type").getD ""
        knowledgePoint := (getVal m "knowledge_point").getD ""
        knowledgePointDescription := (getVal m "knowledge_point_description").getD ""
        extraRequirement := (getVal m "extra_requirement").getD "" }
  | .defaulted _ => Except.error examQuestionUnpackTypeError

/-- `fix_exam_question` with its exhaustion path made explicit: a no-op
on a compliant verdict; otherwise the oracle interaction with
`max_retry_attempts = 3` and `default_factory = lambda: exam_question`,
followed by `ExamQuestion(**json_res)`. -/
def fixExamQuestionChecked {ρ : Type} (agentF : Nat → String → ρ)
    (parse : ρ → Option (List (String × String)))
    (fixPrompt jsonFormatPrompt : String) (q : ExamQuestion) (v : VerificationResult) :
    Except String ExamQuestion :=
  if v.isCompliant then Except.ok q
  else buildFixedExamQuestion
    (callAgentFixRetry agentF parse q fixPrompt (mkRetryPrompt jsonFormatPrompt) 3 0)

/-! ## Concrete fixtures used by witness and counterexample theorems -/

/-- The segmentation scenario document of the specification. -/
def c1ScenarioDoc : String := "## 一、单选题（共10分）\n得分：8\n### 第1题\n..."

/-- A verification oracle whose every verdict is non-compliant. -/
def cVerify : ExamQuestion → VerificationResult :=
  fun _ => ⟨false, some "题目不合规"⟩

/-- A verification oracle whose every verdict is compliant. -/
def cVerifyOk : ExamQuestion → VerificationResult :=
  fun _ => ⟨true, none⟩

/-- A remediation oracle that marks every pass in the question text. -/
def cFix : ExamQuestion → VerificationResult → ExamQuestion :=
  fun q _ => { q with question := q.question ++ "+" }

/-- A concrete input artifact. -/
def cQ0 : ExamQuestion :=
  ⟨"原始题目", "答案", "解析", "简答题", "", "", ""⟩

/-- Prompt transcript produced by the exhausted retry loop: one entry per
attempt, the first the caller's prompt and the rest the escalation
prompt. -/
def makePrompts (prompt retryPrompt : String) : Nat → Nat → List String
  | _, 0 => []
  | attempt, fuel + 1 =>
    (if attempt = 0 then prompt else retryPrompt) ::
      makePrompts prompt retryPrompt (attempt + 1) fuel

/-! ## Helper lemmas -/

theorem data_append (a b : String) : (a ++ b).data = a.data ++ b.data := rfl

theorem dropLit_self_append (pat rest : List Char) : dropLit pat (pat ++ rest) = some rest := by
  induction pat with
  | nil => rfl
  | cons c cs ih => simp [dropLit, ih]

theorem scanFirst_head {α : Type} (tryAt : List Char → Option α) (s : List Char) (a : α)
    (h : tryAt s = some a) : scanFirst tryAt s = some a := by
  cases s <;> simp [scanFirst, h]

theorem containsLit_here (pat b : List Char) : containsLit pat (pat ++ b) = true := by
  unfold containsLit
  rw [scanFirst_head _ _ () (by simp [dropLit_self_append])]
  rfl

theorem containsLit_append_left (pat : List Char) :
    ∀ (a s : List Char), containsLit pat s = true → containsLit pat (a ++ s) = true := by
  intro a
  induction a with
  | nil => simp
  | cons c a ih =>
    intro s h
    have h2 := ih s h
    unfold containsLit at h2 ⊢
    rw [List.cons_append, scanFirst]
    cases hf : dropLit pat (c :: (a ++ s)) with
    | some u => simp [hf]
    | none => simp only [hf, Option.map_none']; exact h2

theorem getVal_append_some {κ α : Type} [DecidableEq κ] (m l : List (κ × α)) (k : κ) (v : α)
    (h : getVal m k = some v) : getVal (m ++ l) k = some v := by
  induction m with
  | nil => simp [getVal] at h
  | cons p r ih =>
    rw [List.cons_append]
    rw [getVal] at h ⊢
    by_cases hpk : p.1 = k
    · rw [if_pos hpk] at h ⊢; exact h
    · rw [if_neg hpk] at h ⊢; exact ih h

theorem getVal_append_none {κ α : Type} [DecidableEq κ] (m l : List (κ × α)) (k : κ)
    (h : getVal m k = none) : getVal (m ++ l) k = getVal l k := by
  induction m with
  | nil => simp [getVal]
  | cons p r ih =>
    rw [List.cons_append]
    rw [getVal] at h ⊢
    by_cases hpk : p.1 = k
    · rw [if_pos hpk] at h; simp at h
    · rw [if_neg hpk] at h ⊢; exact ih h

theorem refineMastery_persist (prelim : List Char → ℚ) :
    ∀ (ts : List (List Char)) (acc : List (List Char × ℚ)) (t : List Char) (v : ℚ),
      getVal acc t = some v → getVal (refineMastery acc ts prelim) t = some v := by
  unfold refineMastery
  intro ts
  induction ts with
  | nil => intro acc t v h; simpa using h
  | cons h1 ts ih =>
    intro acc t v h
    simp only [List.foldl_cons]
    by_cases hk : (getVal acc h1).isSome
    · rw [if_pos hk]; exact ih acc t v h
    · rw [if_neg hk, dictInsert, if_neg hk]
      exact ih _ t v (getVal_append_some _ _ _ _ h)

theorem refineMastery_retains (prelim : List Char → ℚ) :
    ∀ (ts : List (List Char)) (acc : List (List Char × ℚ)) (t : List Char),
      t ∈ ts → getVal acc t = none →
      getVal (refineMastery acc ts prelim) t = some (prelim t) := by
  unfold refineMastery
  intro ts
  induction ts with
  | nil => intro acc t hmem; simp at hmem
  | cons h1 ts ih =>
    intro acc t hmem hnone
    simp only [List.foldl_cons]
    by_cases heq : t = h1
    · subst heq
      rw [if_neg (by simp [hnone]), dictInsert, if_neg (by simp [hnone])]
      have hv : getVal (acc ++ [(t, prelim t)]) t = some (prelim t) := by
        rw [getVal_append_none _ _ _ hnone]
        simp [getVal]
      have hper := refineMastery_persist prelim ts (acc ++ [(t, prelim t)]) t (prelim t) hv
      unfold refineMastery at hper
      exact hper
    · have hmem2 : t ∈ ts := by
        rcases List.mem_cons.mp hmem with h | h
        · exact absurd h heq
        · exact h
      by_cases hk : (getVal acc h1).isSome
      · rw [if_pos hk]; exact ih acc t hmem2 hnone
      · rw [if_neg hk, dictInsert, if_neg hk]
        refine ih _ t hmem2 ?_
        rw [getVal_append_none _ _ _ hnone]
        simp only [getVal]
        rw [if_neg (fun h => heq h.symm)]

theorem verifyAndFixAux_noncompliant (verify : ExamQuestion → VerificationResult)
    (oracleFix : ExamQuestion → VerificationResult → ExamQuestion)
    (h : ∀ a, (verify a).isCompliant = false) :
    ∀ (n : Nat) (q : ExamQuestion) (vc fc : Nat),
      verifyAndFixAux verify oracleFix n q vc fc =
        ((verifyFixStep verify oracleFix)^[n] q, vc + n, fc + n) := by
  intro n
  induction n with
  | zero => intro q vc fc; simp [verifyAndFixAux]
  | succ n ih =>
    intro q vc fc
    simp only [verifyAndFixAux, h q, Bool.false_eq_true, if_false]
    rw [ih, Function.iterate_succ_apply]
    have h1 : vc + 1 + n = vc + (n + 1) := by omega
    have h2 : fc + 1 + n = fc + (n + 1) := by omega
    rw [h1, h2]
    simp [verifyFixStep]

theorem callAgentAux_allFail {ρ α : Type} (agentF : Nat → String → ρ)
    (parse : ρ → Option (List (String × α))) (required : List String)
    (defaultF : Unit → List (String × α)) (prompt retryPrompt : String)
    (h : ∀ i p, parse (agentF i p) = none) :
    ∀ (fuel attempt : Nat) (sent : List String),
      callAgentAux agentF parse required defaultF prompt retryPrompt fuel attempt sent =
        (defaultF (), sent ++ makePrompts prompt retryPrompt attempt fuel) := by
  intro fuel
  induction fuel with
  | zero => intro attempt sent; simp [callAgentAux, makePrompts]
  | succ fuel ih =>
    intro attempt sent
    rw [callAgentAux]
    simp only [h]
    rw [ih, makePrompts]
    simp

theorem callAgentAux_transcript {ρ α : Type} (agentF : Nat → String → ρ)
    (parse : ρ → Option (List (String × α))) (required : List String)
    (defaultF : Unit → List (String × α)) (prompt rp : String) :
    ∀ (fuel attempt : Nat) (sent : List String),
      attempt = sent.length →
      (∀ i, i < sent.length → sent[i]? = some (promptAt prompt rp i)) →
      ∀ i, i < ((callAgentAux agentF parse required defaultF prompt rp fuel attempt sent).2).length →
        ((callAgentAux agentF parse required defaultF prompt rp fuel attempt sent).2)[i]? =
          some (promptAt prompt rp i) := by
  intro fuel
  induction fuel with
  | zero =>
    intro attempt sent ha hs i hi
    rw [callAgentAux] at hi ⊢
    exact hs i hi
  | succ fuel ih =>
    intro attempt sent ha hs i hi
    have hstep : ∀ j, j < (sent ++ [if attempt = 0 then prompt else rp]).length →
        (sent ++ [if attempt = 0 then prompt else rp])[j]? = some (promptAt prompt rp j) := by
      intro j hj
      rw [List.length_append, List.length_singleton] at hj
      rcases Nat.lt_succ_iff_lt_or_eq.mp hj with hlt | heq
      · rw [List.getElem?_append_left hlt]
        exact hs j hlt
      · subst heq
        rw [List.getElem?_concat_length]
        rw [promptAt, ← ha]
    have hlen : attempt + 1 = (sent ++ [if attempt = 0 then prompt else rp]).length := by
      simp [ha]
    rw [callAgentAux] at hi ⊢
    cases hp : parse (agentF attempt (if attempt = 0 then prompt else rp)) with
    | none =>
      simp only [hp] at hi ⊢
      exact ih (attempt + 1) _ hlen hstep i hi
    | some m =>
      simp only [hp] at hi ⊢
      by_cases hr : hasRequiredFields required m
      · simp only [hr, if_true] at hi ⊢
        exact hstep i hi
      · simp only [hr, if_false] at hi ⊢
        exact ih (attempt + 1) _ hlen hstep i hi

theorem objectiveMasteryOf_eq_claim (qs : List QuestionAnalysis) :
    objectiveMasteryOf qs = claimObjectiveMastery qs := by
  unfold objectiveMasteryOf claimObjectiveMastery
  ring

theorem subjectiveMasteryOf_eq_claim (qs : List QuestionAnalysis) :
    subjectiveMasteryOf qs = claimSubjectiveMastery qs := by
  unfold subjectiveMasteryOf claimSubjectiveMastery
  rcases Nat.eq_zero_or_pos (subjectiveTotalOf qs) with h | h
  · simp [h]
  · rw [if_pos h, if_neg (Nat.pos_iff_ne_zero.mp h)]
    ring

theorem preliminaryMastery_obj_only (qs : List QuestionAnalysis)
    (ho : (objectiveQuestionsOf qs).length ≠ 0)
    (hs : (subjectiveQuestionsOf qs).length = 0) :
    preliminaryMastery qs = claimObjectiveMastery qs := by
  have hcast : ((objectiveQuestionsOf qs).length : ℚ) ≠ 0 := Nat.cast_ne_zero.mpr ho
  simp only [preliminaryMastery, hs]
  rw [if_pos ho]
  simp only [ne_eq, not_true_eq_false, if_false, reduceIte]
  rw [if_pos (Nat.pos_of_ne_zero (by simpa using ho))]
  rw [objectiveMasteryOf_eq_claim]
  rw [if_pos ho, add_zero, Nat.add_zero, mul_div_cancel_right₀ _ hcast]

theorem preliminaryMastery_subj_only (qs : List QuestionAnalysis)
    (ho : (objectiveQuestionsOf qs).length = 0)
    (hs : (subjectiveQuestionsOf qs).length ≠ 0) :
    preliminaryMastery qs = claimSubjectiveMastery qs := by
  have hcast : ((subjectiveQuestionsOf qs).length : ℚ) ≠ 0 := Nat.cast_ne_zero.mpr hs
  simp only [preliminaryMastery, ho]
  rw [if_pos hs]
  simp only [ne_eq, not_true_eq_false, if_false, reduceIte]
  rw [if_pos (Nat.pos_of_ne_zero (by simpa using hs))]
  rw [subjectiveMasteryOf_eq_claim]
  rw [if_pos hs, zero_add, Nat.zero_add, mul_div_cancel_right₀ _ hcast]

theorem preliminaryMastery_mixed (qs : List QuestionAnalysis)
    (ho : (objectiveQuestionsOf qs).length ≠ 0)
    (hs : (subjectiveQuestionsOf qs).length ≠ 0) :
    preliminaryMastery qs =
      (claimObjectiveMastery qs * ((objectiveQuestionsOf qs).length : ℚ) +
        claimSubjectiveMastery qs * ((subjectiveQuestionsOf qs).length : ℚ)) /
      (((objectiveQuestionsOf qs).length : ℚ) + ((subjectiveQuestionsOf qs).length : ℚ)) := by
  simp only [preliminaryMastery]
  rw [if_pos ho, if_pos ho, if_pos hs, if_pos hs]
  rw [if_pos (by omega : 0 < (objectiveQuestionsOf qs).length + (subjectiveQuestionsOf qs).length)]
  rw [objectiveMasteryOf_eq_claim, subjectiveMasteryOf_eq_claim]
  push_cast
  ring

theorem callAgentFixRetry_allFail {ρ : Type} (agentF : Nat → String → ρ)
    (parse : ρ → Option (List (String × String))) (defaultQ : ExamQuestion)
    (prompt retryPrompt : String) (h : ∀ i p, parse (agentF i p) = none) :
    ∀ (fuel attempt : Nat),
      callAgentFixRetry agentF parse defaultQ prompt retryPrompt fuel attempt =
        FixCallResult.defaulted defaultQ := by
  intro fuel
  induction fuel with
  | zero => intro attempt; rfl
  | succ fuel ih =>
    intro attempt
    rw [callAgentFixRetry]
    simp only [h]
    exact ih (attempt + 1)

/-! ## Claim theorems -/

/-- Claim C1 (code evaluation at the failing input): on the
specification's own scenario document
`## 一、单选题（共10分）\n得分：8\n### 第1题\n...` the segmenter returns no
single-choice Section at all — the single-choice pattern demands a
following `## X、` heading, which this document lacks — and the only output
is the phantom empty programming Section produced by the low-precedence
`|$` alternative, instead of the claimed Section(single-choice,
total_score 10, student_score 8, 1 item). -/
theorem c1_scenario_segmentation_eval :
    parseSections c1ScenarioDoc.data =
      [{ sectionName := "编程题".data, questionType := QuestionType.programming,
         totalScore := 0, studentScore := 0, questions := [] }] := by
  decide

/-- Claim C3 (code evaluation at the failing input): on a document with no
programming heading at all (here the empty document) the segmenter still
emits a programming Section, because the `|$` alternative of the
programming pattern matches the empty string; the claim says a type whose
heading is absent yields no Section. -/
theorem c3_missing_heading_programming_eval :
    parseSections ([] : List Char) =
      [{ sectionName := "编程题".data, questionType := QuestionType.programming,
         totalScore := 0, studentScore := 0, questions := [] }] ∧
    containsLit (sectionKeyword QuestionType.programming) ([] : List Char) = false :=
  ⟨by decide, by decide⟩

/-- Claim C2, counterexample: with every verdict non-compliant and
`max_fix_attempts = 3` the loop performs 3 fix steps (not the claimed 2)
and returns the 3rd fix's artifact, which differs from the 2nd fix's
artifact. -/
theorem c2_counterexample :
    verifyAndFixExamQuestion cVerify cFix cQ0 3 =
      ({ cQ0 with question := "原始题目+++" }, 3, 3) ∧
    ({ cQ0 with question := "原始题目+++" } : ExamQuestion) ≠
      { cQ0 with question := "原始题目++" } :=
  ⟨by decide, by decide⟩

/-- Claim C2 (amended): with every verification verdict non-compliant, the
loop with `max_fix_attempts = n` performs exactly `n` verification steps
and exactly `n` fix steps — a fix step also runs after the final
non-compliant verification — and returns the artifact produced by the
`n`-th fix step. -/
theorem c2_loop_counts_amended (verify : ExamQuestion → VerificationResult)
    (oracleFix : ExamQuestion → VerificationResult → ExamQuestion)
    (h : ∀ a, (verify a).isCompliant = false) (q : ExamQuestion) (maxFixAttempts : Nat) :
    verifyAndFixExamQuestion verify oracleFix q maxFixAttempts =
      ((verifyFixStep verify oracleFix)^[maxFixAttempts] q, maxFixAttempts, maxFixAttempts) := by
  unfold verifyAndFixExamQuestion
  rw [verifyAndFixAux_noncompliant verify oracleFix h maxFixAttempts q 0 0]
  simp

/-- Witness for C2's amended theorem at a concrete always-non-compliant
oracle. -/
theorem c2_witness :
    verifyAndFixExamQuestion cVerify cFix cQ0 2 =
      ((verifyFixStep cVerify cFix)^[2] cQ0, 2, 2) :=
  c2_loop_counts_amended cVerify cFix (fun _ => rfl) cQ0 2

/-- Claim C8: when the first verdict is compliant the loop does exactly one
verification step, zero fix steps, and returns the input artifact
unchanged (for any configured `max_fix_attempts ≥ 1`; the request schema
enforces 1 ≤ max_fix_attempts ≤ 5, default 3). -/
theorem c8_compliant_idempotence (verify : ExamQuestion → VerificationResult)
    (oracleFix : ExamQuestion → VerificationResult → ExamQuestion)
    (q : ExamQuestion) (maxFixAttempts : Nat) (hmax : 1 ≤ maxFixAttempts)
    (hc : (verify q).isCompliant = true) :
    verifyAndFixExamQuestion verify oracleFix q maxFixAttempts = (q, 1, 0) := by
  cases maxFixAttempts with
  | zero => omega
  | succ n =>
    unfold verifyAndFixExamQuestion
    rw [verifyAndFixAux]
    simp [hc]

/-- Witness for C8 at a concrete compliant-on-first-verdict oracle. -/
theorem c8_witness : verifyAndFixExamQuestion cVerifyOk cFix cQ0 3 = (cQ0, 1, 0) :=
  c8_compliant_idempotence cVerifyOk cFix cQ0 3 (by omega) rfl

/-- Claim C4: when every oracle response is unparsable, the protocol with
`max_attempts = 3` invokes the oracle exactly 3 times (the transcript has
exactly the caller's prompt and two escalation prompts) and returns
exactly the `default_factory()` value, never an error. -/
theorem c4_retry_exhaustion {ρ α : Type} (agentF : Nat → String → ρ)
    (parse : ρ → Option (List (String × α))) (required : List String)
    (defaultF : Unit → List (String × α)) (prompt jsonFormatPrompt : String)
    (h : ∀ i p, parse (agentF i p) = none) :
    callAgentWithJsonRetry agentF parse required defaultF prompt jsonFormatPrompt 3 =
      (defaultF (),
       [prompt, mkRetryPrompt jsonFormatPrompt, mkRetryPrompt jsonFormatPrompt]) := by
  unfold callAgentWithJsonRetry
  rw [callAgentAux_allFail agentF parse required defaultF prompt
        (mkRetryPrompt jsonFormatPrompt) h 3 0 []]
  rfl

/-- Witness for C4 at a concrete always-unparsable oracle. -/
theorem c4_witness :
    callAgentWithJsonRetry (fun _ _ => "???") (fun _ => (none : Option (List (String × String))))
      ["is_compliant", "suggestion"] (fun _ => [("is_compliant", "false")])
      "请核查该题目" verificationJsonFormatPrompt 3 =
      ([("is_compliant", "false")],
       ["请核查该题目", mkRetryPrompt verificationJsonFormatPrompt,
        mkRetryPrompt verificationJsonFormatPrompt]) :=
  c4_retry_exhaustion (fun _ _ => "???") (fun _ => none) ["is_compliant", "suggestion"]
    (fun _ => [("is_compliant", "false")]) "请核查该题目" verificationJsonFormatPrompt
    (fun _ _ => rfl)

/-- Claim C5: per-topic preliminary mastery — objective-only topics get
100·correct/count; subjective-only topics get 100·score-sum/total-sum with
0 on a zero total; mixed topics get the count-weighted average of the two
sub-masteries; and the 2-objective(1 right)/2-subjective(3/5, 4/5)
scenario yields exactly 60. -/
theorem c5_mastery_formulas :
    (∀ qs : List QuestionAnalysis, (objectiveQuestionsOf qs).length ≠ 0 →
      (subjectiveQuestionsOf qs).length = 0 →
      preliminaryMastery qs = claimObjectiveMastery qs) ∧
    (∀ qs : List QuestionAnalysis, (objectiveQuestionsOf qs).length = 0 →
      (subjectiveQuestionsOf qs).length ≠ 0 →
      preliminaryMastery qs = claimSubjectiveMastery qs) ∧
    (∀ qs : List QuestionAnalysis, (objectiveQuestionsOf qs).length ≠ 0 →
      (subjectiveQuestionsOf qs).length ≠ 0 →
      preliminaryMastery qs =
        (claimObjectiveMastery qs * ((objectiveQuestionsOf qs).length : ℚ) +
          claimSubjectiveMastery qs * ((subjectiveQuestionsOf qs).length : ℚ)) /
        (((objectiveQuestionsOf qs).length : ℚ) + ((subjectiveQuestionsOf qs).length : ℚ))) ∧
    preliminaryMastery c5ScenarioItems = 60 := by
  refine ⟨preliminaryMastery_obj_only, preliminaryMastery_subj_only, preliminaryMastery_mixed, ?_⟩
  have hoc : (objectiveQuestionsOf c5ScenarioItems).length = 2 := by decide
  have hsc : (subjectiveQuestionsOf c5ScenarioItems).length = 2 := by decide
  have h := preliminaryMastery_mixed c5ScenarioItems (by decide) (by decide)
  rw [h, hoc, hsc]
  have h1 : claimObjectiveMastery c5ScenarioItems = 50 := by
    unfold claimObjectiveMastery
    rw [show correctCountOf c5ScenarioItems = 1 from by decide, hoc]
    norm_num
  have h2 : claimSubjectiveMastery c5ScenarioItems = 70 := by
    unfold claimSubjectiveMastery
    rw [show subjectiveTotalOf c5ScenarioItems = 10 from by decide,
        show subjectiveScoreOf c5ScenarioItems = 7 from by decide]
    norm_num
  rw [h1, h2]
  norm_num

/-- Witness for C5's mixed case at the scenario items. -/
theorem c5_witness :
    preliminaryMastery c5ScenarioItems =
      (claimObjectiveMastery c5ScenarioItems * ((objectiveQuestionsOf c5ScenarioItems).length : ℚ) +
        claimSubjectiveMastery c5ScenarioItems * ((subjectiveQuestionsOf c5ScenarioItems).length : ℚ)) /
      (((objectiveQuestionsOf c5ScenarioItems).length : ℚ) +
        ((subjectiveQuestionsOf c5ScenarioItems).length : ℚ)) :=
  c5_mastery_formulas.2.2.1 c5ScenarioItems (by decide) (by decide)

/-- Claim C6, counterexample: suggestion generation does raise — on the
oracle response `无法生成学习建议` the handler signals the `ValueError`
to its caller instead of absorbing the failure. -/
theorem c6_counterexample :
    learningSuggestionsFromResult "无法生成学习建议".data =
      Except.error suggestionErrorMsg := rfl

/-- Claim C6 (amended): the core is not raise-free.  The oracle call
protocol itself absorbs parse/validation failures of returned responses,
returning the `default_factory()` value instead of raising; but
suggestion generation raises an error to its caller exactly when the
oracle's response is empty after stripping or contains `无法` or `不能`,
and the verify-fix loop's fix step raises a `TypeError` on retry
exhaustion, because `ExamQuestion(**json_res)` is applied to the
`ExamQuestion` object returned by its `default_factory`. -/
theorem c6_failure_absorption_amended :
    (∀ result : List Char,
      (∃ e, learningSuggestionsFromResult result = Except.error e) ↔
        (pyStrip result = [] ∨ containsLit "无法".data result = true ∨
          containsLit "不能".data result = true)) ∧
    (∀ (ρ α : Type) (agentF : Nat → String → ρ)
        (parse : ρ → Option (List (String × α))) (required : List String)
        (defaultF : Unit → List (String × α)) (prompt jsonFormatPrompt : String)
        (maxRetryAttempts : Nat),
      (∀ i p, parse (agentF i p) = none) →
      (callAgentWithJsonRetry agentF parse required defaultF prompt jsonFormatPrompt
        maxRetryAttempts).1 = defaultF ()) ∧
    (∀ (ρ : Type) (agentF : Nat → String → ρ)
        (parse : ρ → Option (List (String × String)))
        (fixPrompt jsonFormatPrompt : String) (q : ExamQuestion) (v : VerificationResult),
      (∀ i p, parse (agentF i p) = none) → v.isCompliant = false →
      fixExamQuestionChecked agentF parse fixPrompt jsonFormatPrompt q v =
        Except.error examQuestionUnpackTypeError) := by
  refine ⟨?_, ?_, ?_⟩
  · intro result
    unfold learningSuggestionsFromResult
    by_cases hb : ((pyStrip result).isEmpty || containsLit "无法".data result ||
        containsLit "不能".data result) = true
    · rw [if_pos hb]
      constructor
      · intro _
        simp only [Bool.or_eq_true, List.isEmpty_iff] at hb
        tauto
      · intro _
        exact ⟨suggestionErrorMsg, rfl⟩
    · rw [if_neg hb]
      constructor
      · rintro ⟨e, he⟩
        exact Except.noConfusion he
      · intro hcond
        apply absurd _ hb
        simp only [Bool.or_eq_true, List.isEmpty_iff]
        tauto
  · intro ρ α agentF parse required defaultF prompt jsonFormatPrompt maxRetryAttempts h
    unfold callAgentWithJsonRetry
    rw [callAgentAux_allFail agentF parse required defaultF prompt
          (mkRetryPrompt jsonFormatPrompt) h maxRetryAttempts 0 []]
  · intro ρ agentF parse fixPrompt jsonFormatPrompt q v hfail hv
    unfold fixExamQuestionChecked
    rw [hv]
    simp only [Bool.false_eq_true, if_false]
    rw [callAgentFixRetry_allFail agentF parse q fixPrompt
          (mkRetryPrompt jsonFormatPrompt) hfail 3 0]
    rfl

/-- Witness for C6's amended theorem: an error-signalling suggestions
response, an absorbed protocol exhaustion, and a fix step that errors on
exhaustion. -/
theorem c6_witness :
    (∃ e, learningSuggestionsFromResult "不能提供建议".data = Except.error e) ∧
    (callAgentWithJsonRetry (fun _ _ => "x") (fun _ => (none : Option (List (String × String))))
        ["suggestion"] (fun _ => [("suggestion", "默认建议")]) "提示词" "格式要求" 2).1 =
      [("suggestion", "默认建议")] ∧
    fixExamQuestionChecked (fun _ _ => "乱码") (fun _ => (none : Option (List (String × String))))
        "修正提示" verificationJsonFormatPrompt cQ0 ⟨false, some "不合规"⟩ =
      Except.error examQuestionUnpackTypeError :=
  ⟨(c6_failure_absorption_amended.1 "不能提供建议".data).mpr (Or.inr (Or.inr (by decide))),
   c6_failure_absorption_amended.2.1 String String (fun _ _ => "x") (fun _ => none)
     ["suggestion"] (fun _ => [("suggestion", "默认建议")]) "提示词" "格式要求" 2
     (fun _ _ => rfl),
   c6_failure_absorption_amended.2.2 String (fun _ _ => "乱码") (fun _ => none)
     "修正提示" verificationJsonFormatPrompt cQ0 ⟨false, some "不合规"⟩
     (fun _ _ => rfl) rfl⟩

/-- Claim C7: after the refinement pass every topic has a final mastery
value, and a topic for which no oracle response line parsed to a number
retains its preliminary estimate unchanged. -/
theorem c7_refinement_retention (pf : List Char → Option ℚ) (response : List Char)
    (topics : List (List Char)) (prelim : List Char → ℚ) (t : List Char)
    (ht : t ∈ topics) :
    (getVal (refineMastery (parseMasteryResponse pf response) topics prelim) t).isSome = true ∧
    (getVal (parseMasteryResponse pf response) t = none →
      getVal (refineMastery (parseMasteryResponse pf response) topics prelim) t =
        some (prelim t)) := by
  constructor
  · cases hv : getVal (parseMasteryResponse pf response) t with
    | some v =>
      rw [refineMastery_persist prelim topics (parseMasteryResponse pf response) t v hv]
      rfl
    | none =>
      rw [refineMastery_retains prelim topics (parseMasteryResponse pf response) t ht hv]
      rfl
  · intro hnone
    exact refineMastery_retains prelim topics (parseMasteryResponse pf response) t ht hnone

/-- Witness for C7: a topic whose only line fails numeric parsing keeps its
preliminary estimate. -/
theorem c7_witness :
    getVal (refineMastery (parseMasteryResponse (fun _ => none) "代数: 很好".data)
        ["代数".data] (fun _ => (50 : ℚ))) "代数".data = some 50 :=
  (c7_refinement_retention (fun _ => none) "代数: 很好".data ["代数".data]
      (fun _ => (50 : ℚ)) "代数".data (by simp)).2 rfl

/-- Claim C9, counterexample: the escalation prompt sent on the retry
attempts does not restate (contain) the original request — here the
original prompt `REQALPHA` is not a substring of the prompt actually sent
on attempt 2. -/
theorem c9_counterexample :
    ((callAgentWithJsonRetry (fun _ _ => "nonjson")
        (fun _ => (none : Option (List (String × String))))
        ["is_compliant"] (fun _ => []) "REQALPHA" verificationJsonFormatPrompt 3).2)[1]? =
      some (mkRetryPrompt verificationJsonFormatPrompt) ∧
    containsLit "REQALPHA".data (mkRetryPrompt verificationJsonFormatPrompt).data = false :=
  ⟨rfl, by decide⟩

/-- Claim C9 (amended): attempt 1 sends the caller's prompt verbatim and
every later attempt sends one and the same fixed escalation prompt, which
embeds the caller's format reminder and the instruction to re-answer the
previous question (referencing, not restating, the original request), and
which differs from the original prompt whenever the two strings differ. -/
theorem c9_escalation_amended {ρ α : Type} (agentF : Nat → String → ρ)
    (parse : ρ → Option (List (String × α))) (required : List String)
    (defaultF : Unit → List (String × α)) (prompt jsonFormatPrompt : String)
    (maxRetryAttempts : Nat) (hne : prompt ≠ mkRetryPrompt jsonFormatPrompt) :
    (∀ i, i < ((callAgentWithJsonRetry agentF parse required defaultF prompt
        jsonFormatPrompt maxRetryAttempts).2).length →
      ((callAgentWithJsonRetry agentF parse required defaultF prompt
        jsonFormatPrompt maxRetryAttempts).2)[i]? =
        some (promptAt prompt (mkRetryPrompt jsonFormatPrompt) i)) ∧
    containsLit jsonFormatPrompt.data (mkRetryPrompt jsonFormatPrompt).data = true ∧
    containsLit "请重新回答之前的问题".data (mkRetryPrompt jsonFormatPrompt).data = true ∧
    (∀ i, 1 ≤ i →
      ((callAgentWithJsonRetry agentF parse required defaultF prompt
        jsonFormatPrompt maxRetryAttempts).2)[i]? ≠ some prompt) := by
  have htr := callAgentAux_transcript agentF parse required defaultF prompt
    (mkRetryPrompt jsonFormatPrompt) maxRetryAttempts 0 [] rfl
    (by intro i hi; simp at hi)
  have hd : (mkRetryPrompt jsonFormatPrompt).data =
      "上一次的响应格式不正确，无法解析为JSON。".data ++
        (jsonFormatPrompt.data ++ "\n\n请重新回答之前的问题。".data) := by
    simp [mkRetryPrompt, data_append, List.append_assoc]
  refine ⟨htr, ?_, ?_, ?_⟩
  · rw [hd]
    exact containsLit_append_left _ _ _ (containsLit_here _ _)
  · rw [hd]
    refine containsLit_append_left _ _ _ ?_
    refine containsLit_append_left _ _ _ ?_
    decide
  · intro i hi hEq
    by_cases hlen : i < ((callAgentWithJsonRetry agentF parse required defaultF prompt
        jsonFormatPrompt maxRetryAttempts).2).length
    · have hsome := htr i hlen
      have hpe : prompt = promptAt prompt (mkRetryPrompt jsonFormatPrompt) i :=
        Option.some.inj (hEq.symm.trans hsome)
      rw [promptAt, if_neg (by omega)] at hpe
      exact hne hpe
    · rw [List.getElem?_eq_none (by omega)] at hEq
      exact Option.noConfusion hEq

/-- Witness for C9's amended theorem at a concrete invocation. -/
theorem c9_witness :
    ((callAgentWithJsonRetry (fun _ _ => "bad")
        (fun _ => (none : Option (List (String × String))))
        ["k"] (fun _ => []) "原始提问" verificationJsonFormatPrompt 2).2)[1]? ≠
      some "原始提问" :=
  (c9_escalation_amended (fun _ _ => "bad") (fun _ => none) ["k"] (fun _ => [])
      "原始提问" verificationJsonFormatPrompt 2 (by decide)).2.2.2 1 (by omega)

/-- Claim C10: when the sections' total scores sum to 0 the overall
percentage is reported as 0 without attempting the division (the
computation is a total function of the report). -/
theorem c10_zero_total_guard (sections : List SectionAnalysis)
    (h : (sections.map (fun s => s.totalScore)).sum = 0) :
    overallPercentage sections = 0 := by
  simp only [overallPercentage, h]
  norm_num

/-- Witness for C10 at a one-section report with total score 0. -/
theorem c10_witness :
    overallPercentage [⟨"单选题".data, QuestionType.singleChoice, 0, 5, []⟩] = 0 :=
  c10_zero_total_guard [⟨"单选题".data, QuestionType.singleChoice, 0, 5, []⟩] (by decide)
